import Mathlib

/-!
Shallow embedding of `src/Findercode.py` (class `WholesaleSpider`), a
single-threaded scrape → extract → classify/score → persist pipeline.

Python strings are modelled as `List Char` (`Text`); Python's substring
operator `in` is list infix (`<:+:`); `str.strip()` / `get_text(strip=True)`
is `pyStrip`; `int(...)` and `float(...)` on decimal literals are
`pyParseInt` / `pyParseFloat` (see their doc comments for the modelled
domain).  The BeautifulSoup DOM fragment for one product block is a
`Product`: the flat list of its sub-elements, searched in document order by
`find` (`findEl`).  The SQLite `suppliers` table is a list of rows; a write
failure is an explicit boolean oracle per insert (`True` = the insert
commits, `False` = `sqlite3.Error` raised, caught and logged).
-/

/-- Python `str` as a list of characters. -/
abbrev Text := List Char

/-- The literal `"N/A"` default used throughout the extractor. -/
def NA : Text := "N/A".data

/-- Python whitespace characters recognised by `str.strip()` (ASCII subset:
space, tab, newline, carriage return, vertical tab, form feed). -/
def pyWs (c : Char) : Bool :=
  c = ' ' ∨ c = '\t' ∨ c = '\n' ∨ c = '\r' ∨ c = '\x0b' ∨ c = '\x0c'

/-- Python `str.strip()`: drop leading and trailing whitespace. -/
def pyStrip (s : Text) : Text :=
  ((s.dropWhile pyWs).reverse.dropWhile pyWs).reverse

/-- `WholesaleSpider._determine_resale_status` (Findercode.py lines 164-179):
empty text → `"Unknown"`; else an approved term → `"Resale Approved"`;
else `"No Resale"` → `"Restricted"`; else `"Unknown"`.  The spec's enum
labels ResaleApproved / Restricted / Unknown are rendered by the code as the
strings `"Resale Approved"` / `"Restricted"` / `"Unknown"`.  Matching is
Python `in`: case-sensitive substring containment. -/
def determine_resale_status (resale_terms : Text) : Text :=
  if resale_terms = [] then "Unknown".data
  else if "Authorized Reseller".data <:+: resale_terms ∨
          "Bulk Orders Allowed".data <:+: resale_terms then "Resale Approved".data
  else if "No Resale".data <:+: resale_terms then "Restricted".data
  else "Unknown".data

/-- Value of a list of decimal digit characters, most significant first. -/
def digitsToNat (cs : Text) : Nat :=
  cs.foldl (fun acc c => acc * 10 + (c.toNat - 48)) 0

/-- Python `int(s)` on the domain exercised by the code: surrounding
whitespace, an optional single sign, then a nonempty run of ASCII decimal
digits (Python additionally accepts digit-group underscores and non-ASCII
digits, which the scraped texts never contain).  `none` models the
`ValueError` the code catches. -/
def pyParseInt (s : Text) : Option Int :=
  let t := pyStrip s
  match t with
  | '+' :: rest =>
      if rest ≠ [] ∧ rest.all Char.isDigit then some (digitsToNat rest) else none
  | '-' :: rest =>
      if rest ≠ [] ∧ rest.all Char.isDigit then some (-(digitsToNat rest : Int)) else none
  | rest =>
      if rest ≠ [] ∧ rest.all Char.isDigit then some (digitsToNat rest) else none

/-- `10 ^ n` as an integer, by plain recursion so that it evaluates inside
the kernel. -/
def tenPow : Nat → Int
  | 0 => 1
  | n + 1 => 10 * tenPow n

/-- A finite Python float value, held exactly as the decimal fraction
`num / 10 ^ exp10`. -/
structure DecFloat where
  num : Int
  exp10 : Nat
deriving DecidableEq

/-- The exact rational value of a `DecFloat`. -/
def DecFloat.toRat (f : DecFloat) : ℚ := (f.num : ℚ) / (10 : ℚ) ^ f.exp10

/-- Strict `<` on `DecFloat` values, by cross-multiplication (denominators
are positive powers of ten). -/
def DecFloat.blt (a b : DecFloat) : Bool :=
  a.num * tenPow b.exp10 < b.num * tenPow a.exp10

/-- The float literal `4.0` the code compares ratings against. -/
def fourF : DecFloat := ⟨4, 0⟩

/-- Python `float(s)` on finite decimal literals, valued exactly:
surrounding whitespace, optional sign, `digits`, `digits.digits`, `.digits`
or `digits.`, and an optional `e`/`E` exponent.  Two idealizations, both
irrelevant to the claims: the IEEE-754 rounding of the literal is not
applied (values are exact decimal fractions), and the special literals
`inf`/`infinity`/`nan` and underscore digit grouping are outside the
modelled domain (`none`).  `none` models the `ValueError` the code
catches. -/
def pyParseFloat (s : Text) : Option DecFloat :=
  let t0 := pyStrip s
  let sgn : Bool × Text :=
    match t0 with
    | '-' :: r => (true, r)
    | '+' :: r => (false, r)
    | r => (false, r)
  let t := sgn.2
  let ip := t.takeWhile Char.isDigit
  let r1 := t.dropWhile Char.isDigit
  let fpr : Text × Text :=
    match r1 with
    | '.' :: r => (r.takeWhile Char.isDigit, r.dropWhile Char.isDigit)
    | r => ([], r)
  let fp := fpr.1
  if ip = [] ∧ fp = [] then none
  else
    let m : Int := digitsToNat ip * tenPow fp.length + digitsToNat fp
    let signed : Int → Int := fun v => if sgn.1 then -v else v
    match fpr.2 with
    | [] => some ⟨signed m, fp.length⟩
    | e :: r3 =>
      if e = 'e' ∨ e = 'E' then
        let esgn : Bool × Text :=
          match r3 with
          | '-' :: r => (true, r)
          | '+' :: r => (false, r)
          | r => (false, r)
        let ed := esgn.2.takeWhile Char.isDigit
        let r5 := esgn.2.dropWhile Char.isDigit
        if ed = [] ∨ r5 ≠ [] then none
        else
          let k := digitsToNat ed
          if esgn.1 then some ⟨signed m, fp.length + k⟩
          else some ⟨signed (m * tenPow k), fp.length⟩
      else none

/-- One BeautifulSoup sub-element of a product block: its tag, its `class`
attribute values, its other attributes, and its text content. -/
structure Element where
  tag : String
  classes : List String
  attrs : List (String × Text)
  text : Text
deriving DecidableEq

/-- One `div.product-card` block: the sub-elements `find` searches, in
document order. -/
structure Product where
  children : List Element
deriving DecidableEq

/-- Whether an element matches `find(tag, class_=cls)`: tag equality plus,
when a class is requested, membership in the element's class list. -/
def matchesSel (e : Element) (tag : String) (cls : Option String) : Bool :=
  e.tag == tag && (match cls with | none => true | some c => e.classes.contains c)

/-- BeautifulSoup `element.find(tag, class_=cls)`: the first matching
sub-element, or `none`. -/
def findEl (p : Product) (tag : String) (cls : Option String) : Option Element :=
  p.children.find? (fun e => matchesSel e tag cls)

/-- `WholesaleSpider._get_text` (lines 107-119): text of the first matching
sub-element, stripped (`get_text(strip=True)`), defaulting to `"N/A"`. -/
def get_text (p : Product) (tag : String) (cls : Option String) : Text :=
  match findEl p tag cls with
  | some e => pyStrip e.text
  | none => NA

/-- `WholesaleSpider._get_attribute` (lines 121-134): the attribute's value
on the first element matching tag and class, defaulting to `"N/A"` when the
element or the attribute is absent. -/
def get_attribute (p : Product) (tag : String) (cls : String) (attr : String) : Text :=
  match findEl p tag (some cls) with
  | some e =>
      match e.attrs.find? (fun kv => kv.1 = attr) with
      | some kv => kv.2
      | none => NA
  | none => NA

/-- `WholesaleSpider._score_reviews` (lines 196-209): `+3` when the
`span.review-count` text is not `"N/A"` and parses as an integer `> 100`;
`0` otherwise, a `ValueError` included. -/
def score_reviews (p : Product) : Nat :=
  let reviews := get_text p "span" (some "review-count")
  if reviews = NA then 0
  else
    match pyParseInt reviews with
    | some n => if n > 100 then 3 else 0
    | none => 0

/-- `WholesaleSpider._score_rating` (lines 211-224): `+5` when the
`span.rating` text is not `"N/A"` and parses as a float `> 4.0`;
`0` otherwise, a `ValueError` included. -/
def score_rating (p : Product) : Nat :=
  let rating := get_text p "span" (some "rating")
  if rating = NA then 0
  else
    match pyParseFloat rating with
    | some q => if DecFloat.blt fourF q then 5 else 0
    | none => 0

/-- `WholesaleSpider._score_years_active` (lines 226-239): `+2` when the
`span.years-active` text is not `"N/A"` and parses as an integer `> 5`;
`0` otherwise, a `ValueError` included. -/
def score_years_active (p : Product) : Nat :=
  let years := get_text p "span" (some "years-active")
  if years = NA then 0
  else
    match pyParseInt years with
    | some n => if n > 5 then 2 else 0
    | none => 0

/-- `WholesaleSpider._calculate_trust_score` (lines 181-194): the sum of the
three sub-scores, clamped by `min(score, 10)`. -/
def calculate_trust_score (p : Product) : Nat :=
  min (score_reviews p + score_rating p + score_years_active p) 10

/-- Helper for Python `str.split(sep)`: the segment up to the first
separator, and the remaining segments.  `s.split(sep)` is
`aux.1 :: aux.2`, always nonempty. -/
def pySplitAux (sep : Char) : Text → Text × List Text
  | [] => ([], [])
  | c :: cs =>
    if c = sep then ([], (pySplitAux sep cs).1 :: (pySplitAux sep cs).2)
    else (c :: (pySplitAux sep cs).1, (pySplitAux sep cs).2)

/-- `url.split("/")[-1]` (Findercode.py line 92): the last segment of the
split, i.e. the suffix after the last `'/'`, or the whole string when it
holds no `'/'`. -/
def categoryOf (url : Text) : Text :=
  (pySplitAux '/' url).2.getLastD (pySplitAux '/' url).1

/-- A value of the scraped item dict: the extracted fields are Python
strings, `trust_score` is a Python int. -/
inductive Val where
  | s : Text → Val
  | n : Nat → Val
deriving DecidableEq

/-- `WholesaleSpider._extract_product_data` (lines 80-105): the scraped item
dict, keys in construction order.  The `except (AttributeError, TypeError)`
arm is dead in this model: every helper is total (absent elements yield the
`"N/A"` defaults), so extraction always returns the dict and never
`None`. -/
def extract_product_data (p : Product) (url : Text) : List (String × Val) :=
  [("category", .s (categoryOf url)),
   ("store_url", .s url),
   ("store_name", .s (get_text p "h2" none)),
   ("price", .s (get_text p "span" (some "price"))),
   ("contact", .s (get_attribute p "a" "contact-link" "href")),
   ("address", .s (get_text p "span" (some "address"))),
   ("resale_status", .s (determine_resale_status (get_text p "div" (some "resale-policy")))),
   ("trust_score", .n (calculate_trust_score p))]

/-- One row of the `suppliers` table: the seven bound columns of the
`INSERT`, in statement order (`id` and `date_scraped` are filled by
SQLite).  `none` would model a `KeyError` on a missing dict key; extracted
items always carry all seven keys. -/
def rowOfItem (item : List (String × Val)) : List (Option Val) :=
  [item.lookup "category", item.lookup "store_name", item.lookup "price",
   item.lookup "contact", item.lookup "address",
   item.lookup "resale_status", item.lookup "trust_score"]

/-- `WholesaleSpider._save_to_database` (lines 136-162): on success (`ok`)
the `INSERT` appends one row and commits; on an `sqlite3.Error` the error
is logged and the table is left unchanged. -/
def save_to_database (db : List (List (Option Val))) (ok : Bool)
    (item : List (String × Val)) : List (List (Option Val)) :=
  if ok then db ++ [rowOfItem item] else db

/-- `WholesaleSpider.parse` (lines 61-78): for each `div.product-card`
block, extract the item, save it (the paired boolean is the insert-success
oracle), and yield it.  The code's `if item:` guard is kept literally: the
item dict is never empty, so no record is dropped.  Returns the final table
and the yielded items in order. -/
def parse (url : Text) : List (Product × Bool) → List (List (Option Val)) →
    List (List (Option Val)) × List (List (String × Val))
  | [], db => (db, [])
  | (p, ok) :: rest, db =>
    let item := extract_product_data p url
    if item ≠ [] then
      let db2 := save_to_database db ok item
      let r := parse url rest db2
      (r.1, item :: r.2)
    else parse url rest db

theorem nonnil_not_infix_nil {l : Text} (h : l ≠ []) : ¬ l <:+: ([] : Text) := by
  intro hinf
  exact h (List.eq_nil_of_infix_nil hinf)

/-- C1: the resale classifier is total with the stated precedence:
approved terms win over `"No Resale"`, otherwise `"Unknown"` (also for the
empty string), and the result is always one of the three values. -/
theorem resale_status_total_precedence (t : Text) :
    (determine_resale_status t = "Resale Approved".data ∨
     determine_resale_status t = "Restricted".data ∨
     determine_resale_status t = "Unknown".data) ∧
    (("Authorized Reseller".data <:+: t ∨ "Bulk Orders Allowed".data <:+: t) →
      determine_resale_status t = "Resale Approved".data) ∧
    (¬ ("Authorized Reseller".data <:+: t ∨ "Bulk Orders Allowed".data <:+: t) →
      "No Resale".data <:+: t →
      determine_resale_status t = "Restricted".data) ∧
    (¬ ("Authorized Reseller".data <:+: t ∨ "Bulk Orders Allowed".data <:+: t) →
      ¬ "No Resale".data <:+: t →
      determine_resale_status t = "Unknown".data) ∧
    (t = [] → determine_resale_status t = "Unknown".data) := by
  refine ⟨?_, ?_, ?_, ?_, ?_⟩
  · unfold determine_resale_status
    split
    · exact Or.inr (Or.inr rfl)
    · split
      · exact Or.inl rfl
      · split
        · exact Or.inr (Or.inl rfl)
        · exact Or.inr (Or.inr rfl)
  · intro h
    have hne : t ≠ [] := by
      rcases h with h | h
      · intro he; subst he; exact nonnil_not_infix_nil (by decide) h
      · intro he; subst he; exact nonnil_not_infix_nil (by decide) h
    unfold determine_resale_status
    rw [if_neg hne, if_pos h]
  · intro hna hr
    have hne : t ≠ [] := by
      intro he; subst he; exact nonnil_not_infix_nil (by decide) hr
    unfold determine_resale_status
    rw [if_neg hne, if_neg hna, if_pos hr]
  · intro hna hnr
    by_cases hne : t = []
    · simp [determine_resale_status, hne]
    · unfold determine_resale_status
      rw [if_neg hne, if_neg hna, if_neg hnr]
  · intro he
    simp [determine_resale_status, he]

/-- Witness for C1 at concrete inputs: a text holding both an approved term
and `"No Resale"` classifies as approved; a pure `"No Resale"` text is
restricted; an unrelated text and the empty text are unknown. -/
theorem resale_status_total_precedence_witness :
    determine_resale_status "Authorized Reseller but No Resale later".data
      = "Resale Approved".data ∧
    determine_resale_status "strictly No Resale".data = "Restricted".data ∧
    determine_resale_status "hello".data = "Unknown".data ∧
    determine_resale_status ([] : Text) = "Unknown".data := by
  refine ⟨?_, ?_, ?_, ?_⟩
  · exact (resale_status_total_precedence _).2.1 (Or.inl (by decide))
  · exact (resale_status_total_precedence _).2.2.1 (by decide) (by decide)
  · exact (resale_status_total_precedence _).2.2.2.1 (by decide) (by decide)
  · exact (resale_status_total_precedence _).2.2.2.2 rfl

theorem tenPow_eq (n : Nat) : tenPow n = (10 : Int) ^ n := by
  induction n with
  | zero => rfl
  | succ k ih => rw [tenPow, ih, pow_succ]; ring

theorem DecFloat.blt_iff (a b : DecFloat) :
    DecFloat.blt a b = true ↔ a.toRat < b.toRat := by
  have h1 : (0 : ℚ) < 10 ^ a.exp10 := by positivity
  have h2 : (0 : ℚ) < 10 ^ b.exp10 := by positivity
  rw [DecFloat.toRat, DecFloat.toRat, div_lt_div_iff₀ h1 h2, DecFloat.blt,
    tenPow_eq, tenPow_eq, decide_eq_true_eq]
  constructor
  · intro h; exact_mod_cast h
  · intro h; exact_mod_cast h

theorem fourF_toRat : fourF.toRat = 4 := by
  simp [fourF, DecFloat.toRat]

theorem pyParseInt_NA : pyParseInt NA = none := by decide

theorem pyParseFloat_NA : pyParseFloat NA = none := by decide

theorem score_reviews_eq (p : Product) :
    score_reviews p =
      match pyParseInt (get_text p "span" (some "review-count")) with
      | some n => if n > 100 then 3 else 0
      | none => 0 := by
  unfold score_reviews
  by_cases h : get_text p "span" (some "review-count") = NA
  · rw [if_pos h, h, pyParseInt_NA]
  · rw [if_neg h]

theorem score_rating_eq (p : Product) :
    score_rating p =
      match pyParseFloat (get_text p "span" (some "rating")) with
      | some q => if DecFloat.blt fourF q then 5 else 0
      | none => 0 := by
  unfold score_rating
  by_cases h : get_text p "span" (some "rating") = NA
  · rw [if_pos h, h, pyParseFloat_NA]
  · rw [if_neg h]

theorem score_years_active_eq (p : Product) :
    score_years_active p =
      match pyParseInt (get_text p "span" (some "years-active")) with
      | some n => if n > 5 then 2 else 0
      | none => 0 := by
  unfold score_years_active
  by_cases h : get_text p "span" (some "years-active") = NA
  · rw [if_pos h, h, pyParseInt_NA]
  · rw [if_neg h]

theorem score_reviews_cases (p : Product) :
    score_reviews p = 0 ∨ score_reviews p = 3 := by
  rw [score_reviews_eq]
  rcases pyParseInt (get_text p "span" (some "review-count")) with _ | n
  · exact Or.inl rfl
  · by_cases h : n > 100
    · simp [h]
    · simp [h]

theorem score_rating_cases (p : Product) :
    score_rating p = 0 ∨ score_rating p = 5 := by
  rw [score_rating_eq]
  rcases pyParseFloat (get_text p "span" (some "rating")) with _ | q
  · exact Or.inl rfl
  · by_cases h : DecFloat.blt fourF q
    · simp [h]
    · simp [h]

theorem score_years_active_cases (p : Product) :
    score_years_active p = 0 ∨ score_years_active p = 2 := by
  rw [score_years_active_eq]
  rcases pyParseInt (get_text p "span" (some "years-active")) with _ | n
  · exact Or.inl rfl
  · by_cases h : n > 5
    · simp [h]
    · simp [h]

/-- The spec's first scoring example block: reviews `150`, rating `4.5`,
years active `10`. -/
def exampleBlockA : Product :=
  ⟨[⟨"span", ["review-count"], [], "150".data⟩,
    ⟨"span", ["rating"], [], "4.5".data⟩,
    ⟨"span", ["years-active"], [], "10".data⟩]⟩

/-- The spec's second scoring example block: reviews `"abc"` (non-numeric),
rating `4.5`, years active `3`. -/
def exampleBlockB : Product :=
  ⟨[⟨"span", ["review-count"], [], "abc".data⟩,
    ⟨"span", ["rating"], [], "4.5".data⟩,
    ⟨"span", ["years-active"], [], "3".data⟩]⟩

/-- C3: the trust score is the clamped sum of three independent sub-scores
(`+3` for an integer review count `> 100`, `+5` for a float rating `> 4.0`,
`+2` for integer years active `> 5`), a parse failure zeroing only its own
sub-score; the spec's two examples evaluate to `10` and `5`. -/
theorem trust_score_additive (p : Product) :
    (calculate_trust_score p =
        min (score_reviews p + score_rating p + score_years_active p) 10) ∧
    (∀ n : Int, pyParseInt (get_text p "span" (some "review-count")) = some n →
        100 < n → score_reviews p = 3) ∧
    (∀ n : Int, pyParseInt (get_text p "span" (some "review-count")) = some n →
        ¬ 100 < n → score_reviews p = 0) ∧
    (pyParseInt (get_text p "span" (some "review-count")) = none →
        score_reviews p = 0) ∧
    (∀ q : DecFloat, pyParseFloat (get_text p "span" (some "rating")) = some q →
        4 < q.toRat → score_rating p = 5) ∧
    (∀ q : DecFloat, pyParseFloat (get_text p "span" (some "rating")) = some q →
        ¬ 4 < q.toRat → score_rating p = 0) ∧
    (pyParseFloat (get_text p "span" (some "rating")) = none →
        score_rating p = 0) ∧
    (∀ n : Int, pyParseInt (get_text p "span" (some "years-active")) = some n →
        5 < n → score_years_active p = 2) ∧
    (∀ n : Int, pyParseInt (get_text p "span" (some "years-active")) = some n →
        ¬ 5 < n → score_years_active p = 0) ∧
    (pyParseInt (get_text p "span" (some "years-active")) = none →
        score_years_active p = 0) ∧
    calculate_trust_score exampleBlockA = 10 ∧
    calculate_trust_score exampleBlockB = 5 := by
  refine ⟨rfl, ?_, ?_, ?_, ?_, ?_, ?_, ?_, ?_, ?_, by decide, by decide⟩
  · intro n hn hlt
    rw [score_reviews_eq, hn]
    simp [hlt]
  · intro n hn hlt
    rw [score_reviews_eq, hn]
    simp [hlt]
  · intro hn
    rw [score_reviews_eq, hn]
  · intro q hq hlt
    have hb : DecFloat.blt fourF q = true := by
      rw [DecFloat.blt_iff, fourF_toRat]; exact hlt
    rw [score_rating_eq, hq]
    simp [hb]
  · intro q hq hlt
    have hb : ¬ DecFloat.blt fourF q = true := by
      rw [DecFloat.blt_iff, fourF_toRat]; exact hlt
    rw [score_rating_eq, hq]
    simp [hb]
  · intro hq
    rw [score_rating_eq, hq]
  · intro n hn hlt
    rw [score_years_active_eq, hn]
    simp [hlt]
  · intro n hn hlt
    rw [score_years_active_eq, hn]
    simp [hlt]
  · intro hn
    rw [score_years_active_eq, hn]

/-- Witness for C3 at the spec's example blocks: each sub-score hypothesis
discharged at concrete parses (`150`, `4.5`, `10`, and non-numeric
`"abc"`). -/
theorem trust_score_additive_witness :
    score_reviews exampleBlockA = 3 ∧ score_rating exampleBlockA = 5 ∧
    score_years_active exampleBlockA = 2 ∧ score_reviews exampleBlockB = 0 := by
  refine ⟨?_, ?_, ?_, ?_⟩
  · exact (trust_score_additive exampleBlockA).2.1 150 (by decide) (by decide)
  · exact (trust_score_additive exampleBlockA).2.2.2.2.1 ⟨45, 1⟩ (by decide)
      (by norm_num [DecFloat.toRat])
  · exact (trust_score_additive exampleBlockA).2.2.2.2.2.2.2.1 10 (by decide) (by decide)
  · exact (trust_score_additive exampleBlockB).2.2.2.1 (by decide)

/-- C10: the clamp is a no-op: the sub-scores come from `{0,3}`, `{0,5}`,
`{0,2}`, so the sum never exceeds `10`, `min` changes nothing, and the
trust score is always one of `0, 2, 3, 5, 7, 8, 10`. -/
theorem trust_clamp_noop (p : Product) :
    score_reviews p + score_rating p + score_years_active p ≤ 10 ∧
    calculate_trust_score p =
      score_reviews p + score_rating p + score_years_active p ∧
    calculate_trust_score p ∈ [0, 2, 3, 5, 7, 8, 10] := by
  rcases score_reviews_cases p with h1 | h1 <;>
    rcases score_rating_cases p with h2 | h2 <;>
      rcases score_years_active_cases p with h3 | h3 <;>
        simp [calculate_trust_score, h1, h2, h3]

/-- C2: for every product block the trust score lies in `[0, 10]`, and it
is the sum of the three sub-scores saturated at `10` (never negative: the
sub-scores are the non-negative bonuses `3`, `5`, `2` or `0`). -/
theorem trust_score_bounded (p : Product) :
    0 ≤ calculate_trust_score p ∧ calculate_trust_score p ≤ 10 ∧
    calculate_trust_score p =
      min (score_reviews p + score_rating p + score_years_active p) 10 :=
  ⟨Nat.zero_le _, Nat.min_le_right _ _, rfl⟩

theorem resale_status_of_NA : determine_resale_status NA = "Unknown".data := by decide

theorem extract_ne_nil (p : Product) (url : Text) :
    extract_product_data p url ≠ [] := by
  simp [extract_product_data]

theorem lookup_category (p : Product) (url : Text) :
    (extract_product_data p url).lookup "category" = some (.s (categoryOf url)) := rfl

theorem lookup_store_url (p : Product) (url : Text) :
    (extract_product_data p url).lookup "store_url" = some (.s url) := rfl

theorem lookup_store_name (p : Product) (url : Text) :
    (extract_product_data p url).lookup "store_name" =
      some (.s (get_text p "h2" none)) := rfl

theorem lookup_price (p : Product) (url : Text) :
    (extract_product_data p url).lookup "price" =
      some (.s (get_text p "span" (some "price"))) := rfl

theorem lookup_contact (p : Product) (url : Text) :
    (extract_product_data p url).lookup "contact" =
      some (.s (get_attribute p "a" "contact-link" "href")) := rfl

theorem lookup_address (p : Product) (url : Text) :
    (extract_product_data p url).lookup "address" =
      some (.s (get_text p "span" (some "address"))) := rfl

theorem lookup_resale_status (p : Product) (url : Text) :
    (extract_product_data p url).lookup "resale_status" =
      some (.s (determine_resale_status (get_text p "div" (some "resale-policy")))) := rfl

theorem lookup_trust_score (p : Product) (url : Text) :
    (extract_product_data p url).lookup "trust_score" =
      some (.n (calculate_trust_score p)) := rfl

theorem parse_cons (url : Text) (p : Product) (ok : Bool)
    (rest : List (Product × Bool)) (db : List (List (Option Val))) :
    parse url ((p, ok) :: rest) db =
      ((parse url rest (save_to_database db ok (extract_product_data p url))).1,
        extract_product_data p url ::
          (parse url rest (save_to_database db ok (extract_product_data p url))).2) := by
  rw [parse]
  simp [extract_ne_nil]

/-- C4 counterexample: on an absent `div.resale-policy` sub-element the
resale-terms text defaults to `"N/A"` — not to the empty string the claim
states for that one field. -/
theorem resale_terms_default_is_NA :
    get_text ⟨[]⟩ "div" (some "resale-policy") = NA ∧ NA ≠ ([] : Text) := by decide

/-- C4 (amended): every field — the resale-terms text included — is
extracted independently (its value depends only on its own selector's
`find` result) and defaults to `"N/A"` when the expected sub-element or
attribute is absent; extraction is total, so a missing field never rejects
the record. -/
theorem field_defaults_independent (p q : Product) (url : Text) :
    (findEl p "h2" none = none →
      (extract_product_data p url).lookup "store_name" = some (.s NA)) ∧
    (findEl p "span" (some "price") = none →
      (extract_product_data p url).lookup "price" = some (.s NA)) ∧
    (findEl p "a" (some "contact-link") = none →
      (extract_product_data p url).lookup "contact" = some (.s NA)) ∧
    (∀ e, findEl p "a" (some "contact-link") = some e →
      e.attrs.find? (fun kv => kv.1 = "href") = none →
      (extract_product_data p url).lookup "contact" = some (.s NA)) ∧
    (findEl p "span" (some "address") = none →
      (extract_product_data p url).lookup "address" = some (.s NA)) ∧
    (findEl p "div" (some "resale-policy") = none →
      get_text p "div" (some "resale-policy") = NA ∧
      (extract_product_data p url).lookup "resale_status" =
        some (.s "Unknown".data)) ∧
    extract_product_data p url ≠ [] ∧
    (findEl p "h2" none = findEl q "h2" none →
      (extract_product_data p url).lookup "store_name" =
        (extract_product_data q url).lookup "store_name") ∧
    (findEl p "span" (some "price") = findEl q "span" (some "price") →
      (extract_product_data p url).lookup "price" =
        (extract_product_data q url).lookup "price") ∧
    (findEl p "a" (some "contact-link") = findEl q "a" (some "contact-link") →
      (extract_product_data p url).lookup "contact" =
        (extract_product_data q url).lookup "contact") ∧
    (findEl p "span" (some "address") = findEl q "span" (some "address") →
      (extract_product_data p url).lookup "address" =
        (extract_product_data q url).lookup "address") ∧
    (findEl p "div" (some "resale-policy") = findEl q "div" (some "resale-policy") →
      (extract_product_data p url).lookup "resale_status" =
        (extract_product_data q url).lookup "resale_status") := by
  refine ⟨?_, ?_, ?_, ?_, ?_, ?_, extract_ne_nil p url, ?_, ?_, ?_, ?_, ?_⟩
  · intro h
    rw [lookup_store_name]
    simp [get_text, h]
  · intro h
    rw [lookup_price]
    simp [get_text, h]
  · intro h
    rw [lookup_contact]
    simp [get_attribute, h]
  · intro e he ha
    rw [lookup_contact]
    simp [get_attribute, he, ha]
  · intro h
    rw [lookup_address]
    simp [get_text, h]
  · intro h
    have hg : get_text p "div" (some "resale-policy") = NA := by
      simp [get_text, h]
    exact ⟨hg, by rw [lookup_resale_status, hg, resale_status_of_NA]⟩
  · intro h
    rw [lookup_store_name, lookup_store_name]
    simp [get_text, h]
  · intro h
    rw [lookup_price, lookup_price]
    simp [get_text, h]
  · intro h
    rw [lookup_contact, lookup_contact]
    simp [get_attribute, h]
  · intro h
    rw [lookup_address, lookup_address]
    simp [get_text, h]
  · intro h
    rw [lookup_resale_status, lookup_resale_status]
    simp [get_text, h]

/-- Witness for C4 (amended) at concrete blocks: the empty block defaults
every lookup to `"N/A"` / `"Unknown"`, and an `a.contact-link` element
without an `href` attribute also yields `"N/A"`. -/
theorem field_defaults_independent_witness :
    (extract_product_data ⟨[]⟩ "u".data).lookup "store_name" = some (.s NA) ∧
    (extract_product_data ⟨[]⟩ "u".data).lookup "contact" = some (.s NA) ∧
    (extract_product_data ⟨[]⟩ "u".data).lookup "resale_status" =
      some (.s "Unknown".data) ∧
    (extract_product_data ⟨[⟨"a", ["contact-link"], [], []⟩]⟩ "u".data).lookup "contact" =
      some (.s NA) := by
  refine ⟨?_, ?_, ?_, ?_⟩
  · exact (field_defaults_independent ⟨[]⟩ ⟨[]⟩ "u".data).1 (by decide)
  · exact (field_defaults_independent ⟨[]⟩ ⟨[]⟩ "u".data).2.2.1 (by decide)
  · exact ((field_defaults_independent ⟨[]⟩ ⟨[]⟩ "u".data).2.2.2.2.2.1 (by decide)).2
  · exact (field_defaults_independent ⟨[⟨"a", ["contact-link"], [], []⟩]⟩ ⟨[]⟩
      "u".data).2.2.2.1 ⟨"a", ["contact-link"], [], []⟩ (by decide) (by decide)

/-- C5: a structurally present block with every expected sub-element absent
still yields a record: the four sub-element string fields default to
`"N/A"`, `resale_status` to `"Unknown"`, `trust_score` to `0` (the
URL-derived `category` and `store_url` keep their derived values, per the
data model), and the record is both appended to the table and emitted. -/
theorem empty_block_record_emitted (url : Text) (db : List (List (Option Val))) :
    (extract_product_data ⟨[]⟩ url).lookup "store_name" = some (.s NA) ∧
    (extract_product_data ⟨[]⟩ url).lookup "price" = some (.s NA) ∧
    (extract_product_data ⟨[]⟩ url).lookup "contact" = some (.s NA) ∧
    (extract_product_data ⟨[]⟩ url).lookup "address" = some (.s NA) ∧
    (extract_product_data ⟨[]⟩ url).lookup "resale_status" =
      some (.s "Unknown".data) ∧
    (extract_product_data ⟨[]⟩ url).lookup "trust_score" = some (.n 0) ∧
    (extract_product_data ⟨[]⟩ url).lookup "category" = some (.s (categoryOf url)) ∧
    (extract_product_data ⟨[]⟩ url).lookup "store_url" = some (.s url) ∧
    parse url [(⟨[]⟩, true)] db =
      (db ++ [rowOfItem (extract_product_data ⟨[]⟩ url)],
       [extract_product_data ⟨[]⟩ url]) := by
  refine ⟨rfl, rfl, rfl, rfl, ?_, rfl, rfl, rfl, ?_⟩
  · rw [lookup_resale_status]
    have hg : get_text ⟨[]⟩ "div" (some "resale-policy") = NA := rfl
    rw [hg, resale_status_of_NA]
  · rw [parse_cons]
    rfl

theorem pySplitAux_no_sep {sep : Char} {b : Text} (hb : sep ∉ b) :
    pySplitAux sep b = (b, []) := by
  induction b with
  | nil => rfl
  | cons c cs ih =>
    have hc : c ≠ sep := fun h => hb (h ▸ List.mem_cons_self c cs)
    have hcs : sep ∉ cs := fun h => hb (List.mem_cons_of_mem _ h)
    simp [pySplitAux, ih hcs, hc]

theorem pySplitAux_snd_ne_nil {sep : Char} {s : Text} (h : sep ∈ s) :
    (pySplitAux sep s).2 ≠ [] := by
  induction s with
  | nil => cases h
  | cons c cs ih =>
    by_cases hc : c = sep
    · simp [pySplitAux, hc]
    · have hcs : sep ∈ cs := by
        rcases List.mem_cons.1 h with h1 | h1
        · exact absurd h1.symm hc
        · exact h1
      simp [pySplitAux, hc]
      exact ih hcs

theorem pySplitAux_cons_sep (sep : Char) (cs : Text) :
    pySplitAux sep (sep :: cs) =
      ([], (pySplitAux sep cs).1 :: (pySplitAux sep cs).2) := by
  simp [pySplitAux]

theorem pySplitAux_cons_ne {sep c : Char} (cs : Text) (hc : c ≠ sep) :
    pySplitAux sep (c :: cs) =
      (c :: (pySplitAux sep cs).1, (pySplitAux sep cs).2) := by
  simp [pySplitAux, hc]

theorem categoryOf_append (a b : Text) (hb : ('/' : Char) ∉ b) :
    categoryOf (a ++ '/' :: b) = b := by
  induction a with
  | nil =>
    rw [List.nil_append, categoryOf, pySplitAux_cons_sep, pySplitAux_no_sep hb]
    rfl
  | cons c a' ih =>
    by_cases hc : c = '/'
    · subst hc
      unfold categoryOf at ih ⊢
      rw [List.cons_append, pySplitAux_cons_sep]
      dsimp only
      rw [List.getLastD_cons]
      exact ih
    · unfold categoryOf at ih ⊢
      have hm : ('/' : Char) ∈ a' ++ '/' :: b :=
        List.mem_append_right _ (List.mem_cons_self _ _)
      have hne := pySplitAux_snd_ne_nil hm
      rw [List.cons_append, pySplitAux_cons_ne _ hc]
      dsimp only
      rcases hr : (pySplitAux '/' (a' ++ '/' :: b)).2 with _ | ⟨y, ys⟩
      · exact absurd hr hne
      · rw [hr] at ih
        rw [List.getLastD_cons]
        rw [List.getLastD_cons] at ih
        exact ih

/-- C6: the `category` field of the produced record is the source URL's
final path segment — the substring after the last `'/'` of the URL. -/
theorem category_is_last_url_segment (url a b : Text) (p : Product)
    (hurl : url = a ++ '/' :: b) (hb : ('/' : Char) ∉ b) :
    (extract_product_data p url).lookup "category" = some (.s b) := by
  subst hurl
  rw [lookup_category, categoryOf_append a b hb]

/-- Witness for C6 at a concrete URL: the record scraped from
`"https://x.com/electronics.htm"` carries category
`"electronics.htm"`. -/
theorem category_is_last_url_segment_witness :
    (extract_product_data ⟨[]⟩ "https://x.com/electronics.htm".data).lookup "category" =
      some (.s "electronics.htm".data) :=
  category_is_last_url_segment "https://x.com/electronics.htm".data
    "https://x.com".data "electronics.htm".data ⟨[]⟩ (by decide) (by decide)

/-- C7 counterexample: the emitted item dict has no `date_scraped` key
(that column exists only in the store, filled by SQLite at insert time), so
the emitted field set does not include all nine §3 fields. -/
theorem emitted_record_lacks_date_scraped :
    ¬ ("date_scraped" ∈ (extract_product_data ⟨[]⟩ "u".data).map Prod.fst) := by
  decide

/-- C7 (amended): one record is emitted per extracted listing, and its
field set is the §3 set minus `date_scraped` (which is assigned by the
store at persistence time and never emitted): exactly `category`,
`store_url`, `store_name`, `price`, `contact`, `address`, `resale_status`
and `trust_score`, each equal to the corresponding extracted or derived
value. -/
theorem emitted_records_field_mapping (url : Text) (pbs : List (Product × Bool))
    (db : List (List (Option Val))) :
    (parse url pbs db).2 = pbs.map (fun pb => extract_product_data pb.1 url) ∧
    ∀ p : Product,
      (extract_product_data p url).map Prod.fst =
        ["category", "store_url", "store_name", "price", "contact", "address",
         "resale_status", "trust_score"] ∧
      (extract_product_data p url).lookup "category" = some (.s (categoryOf url)) ∧
      (extract_product_data p url).lookup "store_url" = some (.s url) ∧
      (extract_product_data p url).lookup "store_name" =
        some (.s (get_text p "h2" none)) ∧
      (extract_product_data p url).lookup "price" =
        some (.s (get_text p "span" (some "price"))) ∧
      (extract_product_data p url).lookup "contact" =
        some (.s (get_attribute p "a" "contact-link" "href")) ∧
      (extract_product_data p url).lookup "address" =
        some (.s (get_text p "span" (some "address"))) ∧
      (extract_product_data p url).lookup "resale_status" =
        some (.s (determine_resale_status (get_text p "div" (some "resale-policy")))) ∧
      (extract_product_data p url).lookup "trust_score" =
        some (.n (calculate_trust_score p)) := by
  refine ⟨?_, fun p => ⟨rfl, rfl, rfl, rfl, rfl, rfl, rfl, rfl, rfl⟩⟩
  induction pbs generalizing db with
  | nil => rfl
  | cons pb rest ih =>
    obtain ⟨p, ok⟩ := pb
    rw [parse_cons]
    simp [ih]

/-- C8: a failed insert is non-fatal: it leaves the table unchanged, the
record's row is simply dropped (no retry, no re-queue), the same record is
still emitted, and the remaining blocks are processed exactly as if the
failure had not happened. -/
theorem store_failure_nonfatal (url : Text) (p : Product)
    (rest : List (Product × Bool)) (db : List (List (Option Val))) :
    save_to_database db false (extract_product_data p url) = db ∧
    parse url ((p, false) :: rest) db =
      ((parse url rest db).1,
        extract_product_data p url :: (parse url rest db).2) := by
  refine ⟨rfl, ?_⟩
  rw [parse_cons]
  rfl

/-- C9: a successful persist appends exactly one row — a function of the
item alone — to the end of the table, leaving every stored row unchanged;
with no uniqueness constraint, persisting the same block twice appends two
equal rows. -/
theorem persist_appends_duplicate_rows (url : Text) (p : Product)
    (db : List (List (Option Val))) (item : List (String × Val)) :
    save_to_database db true item = db ++ [rowOfItem item] ∧
    (parse url [(p, true), (p, true)] db).1 =
      db ++ [rowOfItem (extract_product_data p url),
             rowOfItem (extract_product_data p url)] := by
  refine ⟨rfl, ?_⟩
  rw [parse_cons, parse_cons]
  show save_to_database (save_to_database db true _) true _ = _
  simp [save_to_database]
